import Mathlib

/-!
Verification of the rendering front-end (`src/src/render/front.rs`).

The development shallowly embeds the `Renderer` of `front.rs`: the
append-only low-level command buffer becomes a `List Command`, each
`self.buf.xxx(...)` call becomes an appended `Command`, and the fallible
binders return the partially-mutated renderer together with an optional
error (mirroring Rust's early `return Err(..)` which leaves the already
emitted commands in place).

Types that live outside `src/` (the `target`, `mesh`, `shade`, `state` and
`device` modules: `Frame`, `Plane`, the command-sink operations, program
interfaces, ...) are modelled from the spec; each such definition carries a
doc comment starting with `Modelled from the spec:`.  Resource handles are
plain `Nat` names, opaque payloads (blend state, clear data, samplers, ...)
are opaque `Nat`s.
-/

namespace Gfx

/-- Modelled from the spec: an attachment slot holds one of empty, a
renderable-surface reference, or a texture-plus-level-plus-layer reference
(`target::Plane`, outside `src/`). -/
inductive Plane where
  | PlaneEmpty : Plane
  | PlaneSurface : Nat → Plane
  | PlaneTexture : Nat → Nat → Nat → Plane
deriving DecidableEq

/-- Modelled from the spec: a Frame is a value holding width, height, an
ordered sequence of color-attachment slots and one depth and one stencil
slot (`target::Frame`, outside `src/`). -/
structure Frame where
  width : Nat
  height : Nat
  colors : List Plane
  depth : Plane
  stencil : Plane
deriving DecidableEq

/-- Modelled from the spec: the number of color-attachment slots of a Frame
(a fixed-size array in the source). -/
def max_color_targets : Nat := 4

/-- Modelled from the spec: `target::Frame::new` — a frame of the given size
with every attachment slot empty. -/
def Frame.new (w h : Nat) : Frame :=
  { width := w, height := h,
    colors := List.replicate max_color_targets Plane.PlaneEmpty,
    depth := Plane.PlaneEmpty, stencil := Plane.PlaneEmpty }

/-- Modelled from the spec: a Frame "is default" (use the platform-provided
target) exactly when every attachment slot is empty. -/
def Frame.is_default (f : Frame) : Bool :=
  f.colors.all (fun c => c == Plane.PlaneEmpty) &&
  f.depth == Plane.PlaneEmpty && f.stencil == Plane.PlaneEmpty

/-- An attachment slot index: a color index, or depth, or stencil. -/
inductive Slot where
  | color : Nat → Slot
  | depth : Slot
  | stencil : Slot
deriving DecidableEq

/-- The attachment of a frame at a given slot (out-of-range color slots
give `none`). -/
def Frame.attachment (f : Frame) : Slot → Option Plane
  | Slot.color i => f.colors.get? i
  | Slot.depth => some f.depth
  | Slot.stencil => some f.stencil

/-- Modelled from the spec: `device::target::Target` — which attachment
point a bind/unbind command addresses. -/
inductive Target where
  | TargetColor : Nat → Target
  | TargetDepth : Target
  | TargetStencil : Target
deriving DecidableEq

/-- Modelled from the spec: the index-element width tag (`device::attrib`
`U8`/`U16`/`U32`). -/
inductive IndexType where
  | U8 : IndexType
  | U16 : IndexType
  | U32 : IndexType
deriving DecidableEq

/-- Modelled from the spec: a shader uniform value (`device::shade`); only
`ValueI32` is produced by the front-end itself, other variants are opaque. -/
inductive UniformValue where
  | ValueI32 : Int → UniformValue
  | ValueOther : Nat → UniformValue
deriving DecidableEq

/-- Modelled from the spec: the low-level command sink — one constructor
per operation the front-end invokes on `device::draw::CommandBuffer`. -/
inductive Command where
  | set_viewport : Nat → Nat → Nat → Nat → Command
  | call_clear : Nat → Command
  | bind_frame_buffer : Nat → Command
  | unbind_target : Target → Command
  | bind_target_surface : Target → Nat → Command
  | bind_target_texture : Target → Nat → Nat → Nat → Command
  | bind_program : Nat → Command
  | set_primitive : Nat → Command
  | set_scissor : Nat → Command
  | set_depth_stencil : Nat → Nat → Nat → Command
  | set_blend : Nat → Command
  | set_color_mask : Nat → Command
  | bind_array_buffer : Nat → Command
  | bind_attribute : Nat → Nat → Nat → Nat → Nat → Nat → Command
  | bind_uniform : Nat → UniformValue → Command
  | bind_uniform_block : Nat → Nat → Nat → Nat → Command
  | bind_texture : Nat → Nat → Nat → Nat → Command
  | bind_index : Nat → Command
  | call_draw : Nat → Nat → Nat → Command
  | call_draw_indexed : Nat → IndexType → Nat → Nat → Command
deriving DecidableEq

/-- `ParameterError` from `front.rs`. -/
inductive ParameterError where
  | ErrorParamUniform : String → ParameterError
  | ErrorParamBlock : String → ParameterError
  | ErrorParamTexture : String → ParameterError
  | ErrorParamSampler : String → ParameterError
deriving DecidableEq

/-- `MeshError` from `front.rs`. -/
inductive MeshError where
  | ErrorAttributeMissing : String → MeshError
  | ErrorAttributeType : MeshError
deriving DecidableEq

/-- `DrawError` from `front.rs`. -/
inductive DrawError where
  | ErrorProgram : DrawError
  | ErrorParameter : ParameterError → DrawError
  | ErrorMesh : MeshError → DrawError
  | ErrorSlice : DrawError
deriving DecidableEq

/-- Modelled from the spec: a declared uniform variable of a linked program
interface (name and location; `device::shade`, outside `src/`). -/
structure UniformVar where
  name : String
  location : Nat
deriving DecidableEq

/-- Modelled from the spec: a declared uniform block (name). -/
structure BlockVar where
  name : String
deriving DecidableEq

/-- Modelled from the spec: a declared texture/sampler slot (name and
sampler-uniform location). -/
structure SamplerVar where
  name : String
  location : Nat
deriving DecidableEq

/-- Modelled from the spec: a declared vertex attribute of a program (name,
shader input location, declared base element type). -/
structure AttributeVar where
  name : String
  location : Nat
  base_type : Nat
deriving DecidableEq

/-- Modelled from the spec: `device::shade::ProgramInfo` — the declared
interface of a linked program. -/
structure ProgramInfo where
  attributes : List AttributeVar
  uniforms : List UniformVar
  blocks : List BlockVar
  textures : List SamplerVar
deriving DecidableEq

/-- Modelled from the spec: a texture handle exposing a name and a
queryable kind. -/
structure TextureHandle where
  name : Nat
  kind : Nat
deriving DecidableEq

/-- Modelled from the spec: a program shell (`shade::Program`): a program
handle (name plus declared interface) together with the parameter values
its `fill_params` step supplies — one optional value per declared uniform,
block and texture, positionally aligned with the interface.  Block values
are uniform-buffer handle names; texture values pair a texture handle with
an opaque sampler. -/
structure Program where
  prog_name : Nat
  info : ProgramInfo
  uniform_values : List (Option UniformValue)
  block_values : List (Option Nat)
  texture_values : List (Option (TextureHandle × Nat))
deriving DecidableEq

/-- Modelled from the spec: a named, typed mesh vertex attribute
(`mesh::Attribute`): source buffer name, element count, element type,
stride and byte offset. -/
structure Attribute where
  name : String
  buffer : Nat
  elem_count : Nat
  elem_type : Nat
  stride : Nat
  offset : Nat
deriving DecidableEq

/-- Modelled from the spec: `mesh::Mesh` — an ordered set of named vertex
attributes. -/
structure Mesh where
  num_vertices : Nat
  attributes : List Attribute
deriving DecidableEq

/-- Modelled from the spec: `mesh::Slice` — a vertex range or an indexed
range (8/16/32-bit elements), tagged with a primitive topology. -/
inductive Slice where
  | VertexSlice : Nat → Nat → Nat → Slice
  | IndexSlice8 : Nat → Nat → Nat → Nat → Slice
  | IndexSlice16 : Nat → Nat → Nat → Nat → Slice
  | IndexSlice32 : Nat → Nat → Nat → Nat → Slice
deriving DecidableEq

/-- Modelled from the spec: `state::DrawState` — the fixed-function draw
state; its payloads are opaque to the front-end. -/
structure DrawState where
  primitive : Nat
  scissor : Nat
  depth : Nat
  stencil : Nat
  blend : Nat
  color_mask : Nat
deriving DecidableEq

/-- Modelled from the spec: `state::DrawState::new()` — default state. -/
def DrawState.new : DrawState :=
  { primitive := 0, scissor := 0, depth := 0, stencil := 0,
    blend := 0, color_mask := 0 }

/-- Modelled from the spec: the cull mode is derived from the primitive
state by the external `state` module; its exact derivation is opaque. -/
def get_cull_mode (primitive : Nat) : Nat := primitive

/-- The private `State` struct of `front.rs` (shadow frame plus a cached
draw state that the source never reads). -/
structure State where
  frame : Frame
  draw_state : DrawState
deriving DecidableEq

/-- `Renderer` from `front.rs`: the command buffer becomes a `List Command`;
`common_array_buffer : Result<ArrayBufferHandle, ()>` becomes an
`Option Nat`; the frame-buffer handles are names. -/
structure Renderer where
  buf : List Command
  common_array_buffer : Option Nat
  common_frame_buffer : Nat
  default_frame_buffer : Nat
  state : State
deriving DecidableEq

/-- `DeviceHelper::create_renderer` from `front.rs`, with the
device-created resource handles supplied as parameters (the device is an
external collaborator). -/
def create_renderer (cab : Option Nat) (cfb dfb : Nat) : Renderer :=
  { buf := [],
    common_array_buffer := cab,
    common_frame_buffer := cfb,
    default_frame_buffer := dfb,
    state := { frame := Frame.new 0 0, draw_state := DrawState.new } }

/-- `Renderer::reset` from `front.rs`: clear the command buffer only. -/
def Renderer.reset (r : Renderer) : Renderer := { r with buf := [] }

/-- `Renderer::clone_empty` from `front.rs`. -/
def Renderer.clone_empty (r : Renderer) : Renderer :=
  { buf := [],
    common_array_buffer := r.common_array_buffer,
    common_frame_buffer := r.common_frame_buffer,
    default_frame_buffer := r.default_frame_buffer,
    state := { frame := Frame.new 0 0, draw_state := DrawState.new } }

/-- The single command emitted by `Renderer::bind_target` for one plane. -/
def target_cmd (tgt : Target) (plane : Plane) : Command :=
  match plane with
  | Plane.PlaneEmpty => Command.unbind_target tgt
  | Plane.PlaneSurface suf => Command.bind_target_surface tgt suf
  | Plane.PlaneTexture tex level layer =>
      Command.bind_target_texture tgt tex level layer

/-- `Renderer::bind_target` from `front.rs` (static helper writing into the
command buffer). -/
def bind_target (buf : List Command) (tgt : Target) (plane : Plane) :
    List Command :=
  buf ++ [target_cmd tgt plane]

/-- The color-diffing loop body of `Renderer::bind_frame`: iterate over the
enumerated zip of the shadow's and the requested frame's color slots,
emitting a target bind only where the planes differ (`i as u8` becomes
`i % 256`). -/
def diff_colors (buf : List Command) :
    List (Nat × (Plane × Plane)) → List Command
  | [] => buf
  | x :: rest =>
    diff_colors
      (if x.2.1 ≠ x.2.2 then
        bind_target buf (Target.TargetColor (x.1 % 256)) x.2.2
      else buf) rest

/-- `Renderer::bind_frame` from `front.rs`. -/
def Renderer.bind_frame (r : Renderer) (frame : Frame) : Renderer :=
  let buf0 := r.buf ++ [Command.set_viewport 0 0 frame.width frame.height]
  if frame.is_default then
    { r with buf := buf0 ++ [Command.bind_frame_buffer r.default_frame_buffer] }
  else
    let buf1 := buf0 ++ [Command.bind_frame_buffer r.common_frame_buffer]
    let buf2 := diff_colors buf1 ((List.zip r.state.frame.colors frame.colors).enum)
    let buf3 :=
      if r.state.frame.depth ≠ frame.depth then
        bind_target buf2 Target.TargetDepth frame.depth
      else buf2
    let buf4 :=
      if r.state.frame.stencil ≠ frame.stencil then
        bind_target buf3 Target.TargetStencil frame.stencil
      else buf3
    { r with buf := buf4, state := { r.state with frame := frame } }

/-- The `i as i32` cast used for the sampler-unit uniform value. -/
def i32_of_nat (n : Nat) : Int :=
  if n % 2 ^ 32 < 2 ^ 31 then Int.ofNat (n % 2 ^ 32)
  else Int.ofNat (n % 2 ^ 32) - 2 ^ 32

/-- The uniform-binding loop of `Renderer::bind_program`: walk the zipped
declared/supplied pairs, emit a uniform-set per present value, abort at the
first absent one. -/
def bind_uniforms (buf : List Command) :
    List (UniformVar × Option UniformValue) →
    List Command × Option ParameterError
  | [] => (buf, none)
  | (var, some v) :: rest =>
    bind_uniforms (buf ++ [Command.bind_uniform var.location v]) rest
  | (var, none) :: _ =>
    (buf, some (ParameterError.ErrorParamUniform var.name))

/-- The block-binding loop of `Renderer::bind_program` (enumerated): slot
and block index both equal the declaration position. -/
def bind_blocks (prog_name : Nat) (buf : List Command) :
    List (Nat × (BlockVar × Option Nat)) →
    List Command × Option ParameterError
  | [] => (buf, none)
  | (i, (_, some b)) :: rest =>
    bind_blocks prog_name
      (buf ++ [Command.bind_uniform_block prog_name i i b]) rest
  | (_, (var, none)) :: _ =>
    (buf, some (ParameterError.ErrorParamBlock var.name))

/-- The texture-binding loop of `Renderer::bind_program` (enumerated): an
integer uniform at the declared sampler location equal to the position
index, then the texture and its sampler bound to that slot. -/
def bind_textures (buf : List Command) :
    List (Nat × (SamplerVar × Option (TextureHandle × Nat))) →
    List Command × Option ParameterError
  | [] => (buf, none)
  | (i, (var, some ts)) :: rest =>
    bind_textures
      (buf ++ [Command.bind_uniform var.location
                 (UniformValue.ValueI32 (i32_of_nat i)),
               Command.bind_texture i ts.1.kind ts.1.name ts.2]) rest
  | (_, (var, none)) :: _ =>
    (buf, some (ParameterError.ErrorParamTexture var.name))

/-- `Renderer::bind_program` from `front.rs`: emit the program bind, then
uniforms, then blocks, then textures, failing fast; the partially filled
command buffer is kept on failure. -/
def Renderer.bind_program (r : Renderer) (p : Program) :
    Renderer × Option ParameterError :=
  let buf0 := r.buf ++ [Command.bind_program p.prog_name]
  match bind_uniforms buf0 (List.zip p.info.uniforms p.uniform_values) with
  | (buf1, some e) => ({ r with buf := buf1 }, some e)
  | (buf1, none) =>
    match bind_blocks p.prog_name buf1
        ((List.zip p.info.blocks p.block_values).enum) with
    | (buf2, some e) => ({ r with buf := buf2 }, some e)
    | (buf2, none) =>
      match bind_textures buf2
          ((List.zip p.info.textures p.texture_values).enum) with
      | (buf3, e) => ({ r with buf := buf3 }, e)

/-- The attribute loop of `Renderer::bind_mesh`: for each declared program
attribute, find the mesh attribute of the same name, check element-type
compatibility (the external `is_compatible` predicate is a parameter), and
emit one attribute bind. -/
def bind_attributes (compat : Nat → Nat → Bool) (attrs : List Attribute)
    (buf : List Command) :
    List AttributeVar → List Command × Option MeshError
  | [] => (buf, none)
  | sat :: rest =>
    match attrs.find? (fun a => a.name == sat.name) with
    | some vat =>
      if compat vat.elem_type sat.base_type then
        bind_attributes compat attrs
          (buf ++ [Command.bind_attribute sat.location vat.buffer
                     vat.elem_count vat.elem_type vat.stride vat.offset])
          rest
      else (buf, some MeshError.ErrorAttributeType)
    | none => (buf, some (MeshError.ErrorAttributeMissing sat.name))

/-- `Renderer::bind_mesh` from `front.rs`: bind the common array buffer
when the device provides one (its absence is silently tolerated), then run
the attribute loop over the program's declared attributes. -/
def Renderer.bind_mesh (compat : Nat → Nat → Bool) (r : Renderer)
    (mesh : Mesh) (info : ProgramInfo) : Renderer × Option MeshError :=
  let buf0 :=
    match r.common_array_buffer with
    | some ab => r.buf ++ [Command.bind_array_buffer ab]
    | none => r.buf
  match bind_attributes compat mesh.attributes buf0 info.attributes with
  | (buf1, e) => ({ r with buf := buf1 }, e)

/-- `Renderer::draw_slice` from `front.rs`. -/
def Renderer.draw_slice (r : Renderer) (slice : Slice) : Renderer :=
  match slice with
  | Slice.VertexSlice prim s e =>
    { r with buf := r.buf ++ [Command.call_draw prim s e] }
  | Slice.IndexSlice8 prim b s e =>
    { r with buf := r.buf ++ [Command.bind_index b,
        Command.call_draw_indexed prim IndexType.U8 s e] }
  | Slice.IndexSlice16 prim b s e =>
    { r with buf := r.buf ++ [Command.bind_index b,
        Command.call_draw_indexed prim IndexType.U16 s e] }
  | Slice.IndexSlice32 prim b s e =>
    { r with buf := r.buf ++ [Command.bind_index b,
        Command.call_draw_indexed prim IndexType.U32 s e] }

/-- `Renderer::draw` from `front.rs`: bind frame, bind program (stop on
parameter error), emit the five fixed-function state commands, bind mesh
(stop on mesh error), dispatch the slice. -/
def Renderer.draw (compat : Nat → Nat → Bool) (r : Renderer) (mesh : Mesh)
    (slice : Slice) (frame : Frame) (p : Program) (st : DrawState) :
    Renderer × Option DrawError :=
  let r1 := r.bind_frame frame
  match r1.bind_program p with
  | (r2, some e) => (r2, some (DrawError.ErrorParameter e))
  | (r2, none) =>
    let r3 := { r2 with buf := r2.buf ++
      [Command.set_primitive st.primitive,
       Command.set_scissor st.scissor,
       Command.set_depth_stencil st.depth st.stencil
         (get_cull_mode st.primitive),
       Command.set_blend st.blend,
       Command.set_color_mask st.color_mask] }
    match Renderer.bind_mesh compat r3 mesh p.info with
    | (r4, some e) => (r4, some (DrawError.ErrorMesh e))
    | (r4, none) => (r4.draw_slice slice, none)

/-- `Renderer::clear` from `front.rs`. -/
def Renderer.clear (r : Renderer) (data : Nat) (frame : Frame) : Renderer :=
  let r1 := r.bind_frame frame
  { r1 with buf := r1.buf ++ [Command.call_clear data] }

/-- A draw or clear call, for reasoning about call sequences. -/
inductive Call where
  | clear : Nat → Frame → Call
  | draw : Mesh → Slice → Frame → Program → DrawState → Call
deriving DecidableEq

/-- Perform one call on a renderer (a failed draw keeps its partially
filled command buffer, as in the source). -/
def runCall (compat : Nat → Nat → Bool) (r : Renderer) : Call → Renderer
  | Call.clear d f => r.clear d f
  | Call.draw m sl f p st => (Renderer.draw compat r m sl f p st).1

/-- Perform a sequence of calls on a renderer. -/
def runCalls (compat : Nat → Nat → Bool) (r : Renderer) :
    List Call → Renderer
  | [] => r
  | c :: cs => runCalls compat (runCall compat r c) cs

/-! Specification-side descriptions of the command deltas each operation
appends, used to characterize the recursive, buffer-threading loops. -/

/-- The optional command one enumerated color-slot pair contributes to the
frame diff. -/
def color_diff_cmd (x : Nat × (Plane × Plane)) : Option Command :=
  if x.2.1 ≠ x.2.2 then
    some (target_cmd (Target.TargetColor (x.1 % 256)) x.2.2)
  else none

/-- The commands `bind_frame` emits after the viewport command. -/
def frame_rest (shadow : Frame) (cfb dfb : Nat) (f : Frame) : List Command :=
  if f.is_default then [Command.bind_frame_buffer dfb]
  else
    Command.bind_frame_buffer cfb ::
      (((List.zip shadow.colors f.colors).enum).filterMap color_diff_cmd ++
       (if shadow.depth ≠ f.depth then
          [target_cmd Target.TargetDepth f.depth] else []) ++
       (if shadow.stencil ≠ f.stencil then
          [target_cmd Target.TargetStencil f.stencil] else []))

/-- The full command delta of `bind_frame`, given the shadow frame and the
two frame-buffer handles. -/
def frame_cmds (shadow : Frame) (cfb dfb : Nat) (f : Frame) : List Command :=
  Command.set_viewport 0 0 f.width f.height :: frame_rest shadow cfb dfb f

/-- The uniform-set commands emitted for the supplied prefix of declared
uniforms, up to the first absent one. -/
def uniform_cmds (l : List (UniformVar × Option UniformValue)) :
    List Command :=
  (l.takeWhile (fun x => x.2.isSome)).filterMap
    (fun x => x.2.map (fun v => Command.bind_uniform x.1.location v))

/-- The error of the uniform walk: the first declared uniform with an
absent value, named. -/
def uniform_error (l : List (UniformVar × Option UniformValue)) :
    Option ParameterError :=
  (l.find? (fun x => x.2.isNone)).map
    (fun x => ParameterError.ErrorParamUniform x.1.name)

/-- The block-bind commands for the supplied prefix of declared blocks. -/
def block_cmds (prog_name : Nat) (l : List (Nat × (BlockVar × Option Nat))) :
    List Command :=
  (l.takeWhile (fun x => x.2.2.isSome)).filterMap
    (fun x => x.2.2.map (fun b => Command.bind_uniform_block prog_name x.1 x.1 b))

/-- The error of the block walk: the first declared block with an absent
value, named. -/
def block_error (l : List (Nat × (BlockVar × Option Nat))) :
    Option ParameterError :=
  (l.find? (fun x => x.2.2.isNone)).map
    (fun x => ParameterError.ErrorParamBlock x.2.1.name)

/-- The two commands emitted per supplied texture, for the supplied prefix
of declared textures. -/
def texture_cmds
    (l : List (Nat × (SamplerVar × Option (TextureHandle × Nat)))) :
    List Command :=
  (l.takeWhile (fun x => x.2.2.isSome)).flatMap
    (fun x =>
      match x.2.2 with
      | some ts =>
        [Command.bind_uniform x.2.1.location
           (UniformValue.ValueI32 (i32_of_nat x.1)),
         Command.bind_texture x.1 ts.1.kind ts.1.name ts.2]
      | none => [])

/-- The error of the texture walk: the first declared texture with an
absent value, named. -/
def texture_error
    (l : List (Nat × (SamplerVar × Option (TextureHandle × Nat)))) :
    Option ParameterError :=
  (l.find? (fun x => x.2.2.isNone)).map
    (fun x => ParameterError.ErrorParamTexture x.2.1.name)

/-- The result of `bind_program`: the first absent parameter, resolving
uniforms before blocks and blocks before textures, each category in
declaration order. -/
def program_error (p : Program) : Option ParameterError :=
  match uniform_error (List.zip p.info.uniforms p.uniform_values) with
  | some e => some e
  | none =>
    match block_error ((List.zip p.info.blocks p.block_values).enum) with
    | some e => some e
    | none => texture_error ((List.zip p.info.textures p.texture_values).enum)

/-- The full command delta of `bind_program`: the program bind, then the
uniform commands, then (if no uniform was missing) the block commands, then
(if no block was missing) the texture commands. -/
def program_cmds (p : Program) : List Command :=
  Command.bind_program p.prog_name ::
  (uniform_cmds (List.zip p.info.uniforms p.uniform_values) ++
   (if (uniform_error (List.zip p.info.uniforms p.uniform_values)).isSome then []
    else
      block_cmds p.prog_name ((List.zip p.info.blocks p.block_values).enum) ++
      (if (block_error ((List.zip p.info.blocks p.block_values).enum)).isSome then []
       else texture_cmds ((List.zip p.info.textures p.texture_values).enum))))

/-- The resolution of one declared program attribute against a mesh's
attribute list: the missing-name error, the (nameless) type-mismatch
error, or the single attribute-bind command. -/
def resolve_attr (compat : Nat → Nat → Bool) (attrs : List Attribute)
    (sat : AttributeVar) : Except MeshError Command :=
  match attrs.find? (fun a => a.name == sat.name) with
  | none => Except.error (MeshError.ErrorAttributeMissing sat.name)
  | some vat =>
    if compat vat.elem_type sat.base_type then
      Except.ok (Command.bind_attribute sat.location vat.buffer
        vat.elem_count vat.elem_type vat.stride vat.offset)
    else Except.error MeshError.ErrorAttributeType

/-- Whether one declared attribute resolves successfully. -/
def attr_ok (compat : Nat → Nat → Bool) (attrs : List Attribute)
    (sat : AttributeVar) : Bool :=
  match resolve_attr compat attrs sat with
  | Except.ok _ => true
  | Except.error _ => false

/-- The attribute-bind commands for the successfully resolving prefix of
the declared attributes. -/
def attr_cmds (compat : Nat → Nat → Bool) (attrs : List Attribute)
    (sats : List AttributeVar) : List Command :=
  (sats.takeWhile (attr_ok compat attrs)).filterMap
    (fun sat => (resolve_attr compat attrs sat).toOption)

/-- The error of the attribute walk: the failure of the first declared
attribute that does not resolve. -/
def attr_error (compat : Nat → Nat → Bool) (attrs : List Attribute)
    (sats : List AttributeVar) : Option MeshError :=
  match (sats.dropWhile (attr_ok compat attrs)).head? with
  | some sat =>
    match resolve_attr compat attrs sat with
    | Except.error e => some e
    | Except.ok _ => none
  | none => none

/-- The optional common-array-buffer bind at the start of `bind_mesh`. -/
def array_buffer_cmds (cab : Option Nat) : List Command :=
  match cab with
  | some ab => [Command.bind_array_buffer ab]
  | none => []

/-- The full command delta of `bind_mesh`. -/
def mesh_cmds (compat : Nat → Nat → Bool) (cab : Option Nat) (m : Mesh)
    (info : ProgramInfo) : List Command :=
  array_buffer_cmds cab ++ attr_cmds compat m.attributes info.attributes

/-- The five fixed-function state commands `draw` emits unconditionally
after a successful program bind. -/
def ff_cmds (st : DrawState) : List Command :=
  [Command.set_primitive st.primitive,
   Command.set_scissor st.scissor,
   Command.set_depth_stencil st.depth st.stencil (get_cull_mode st.primitive),
   Command.set_blend st.blend,
   Command.set_color_mask st.color_mask]

/-- The command delta of `draw_slice`. -/
def slice_cmds : Slice → List Command
  | Slice.VertexSlice prim s e => [Command.call_draw prim s e]
  | Slice.IndexSlice8 prim b s e =>
    [Command.bind_index b, Command.call_draw_indexed prim IndexType.U8 s e]
  | Slice.IndexSlice16 prim b s e =>
    [Command.bind_index b, Command.call_draw_indexed prim IndexType.U16 s e]
  | Slice.IndexSlice32 prim b s e =>
    [Command.bind_index b, Command.call_draw_indexed prim IndexType.U32 s e]

/-- The full command delta of one `draw` call. -/
def draw_cmds (compat : Nat → Nat → Bool) (cab : Option Nat) (cfb dfb : Nat)
    (shadow : Frame) (m : Mesh) (sl : Slice) (f : Frame) (p : Program)
    (st : DrawState) : List Command :=
  frame_cmds shadow cfb dfb f ++ program_cmds p ++
  (match program_error p with
   | some _ => []
   | none =>
     ff_cmds st ++ mesh_cmds compat cab m p.info ++
     (match attr_error compat m.attributes p.info.attributes with
      | some _ => []
      | none => slice_cmds sl))

/-- The result of one `draw` call: success, a wrapped parameter error, or a
wrapped mesh error. -/
def draw_error_spec (compat : Nat → Nat → Bool) (m : Mesh) (p : Program) :
    Option DrawError :=
  match program_error p with
  | some e => some (DrawError.ErrorParameter e)
  | none =>
    (attr_error compat m.attributes p.info.attributes).map DrawError.ErrorMesh

/-- Whether a command is a color/depth/stencil attachment bind/unbind. -/
def is_attach_cmd : Command → Bool
  | Command.unbind_target _ => true
  | Command.bind_target_surface _ _ => true
  | Command.bind_target_texture _ _ _ _ => true
  | _ => false

/-- Whether a command is a draw dispatch. -/
def is_draw_cmd : Command → Bool
  | Command.call_draw _ _ _ => true
  | Command.call_draw_indexed _ _ _ _ => true
  | _ => false

/-- The constructor kind of a command, for counting: 0 viewport, 1 clear,
2 frame-buffer bind, 3 attachment bind/unbind, 4 program bind, 5 primitive,
6 scissor, 7 depth/stencil, 8 blend, 9 color mask, 10 array buffer,
11 attribute, 12 uniform, 13 uniform block, 14 texture, 15 index buffer,
16 draw dispatch. -/
def cmd_tag : Command → Nat
  | Command.set_viewport _ _ _ _ => 0
  | Command.call_clear _ => 1
  | Command.bind_frame_buffer _ => 2
  | Command.unbind_target _ => 3
  | Command.bind_target_surface _ _ => 3
  | Command.bind_target_texture _ _ _ _ => 3
  | Command.bind_program _ => 4
  | Command.set_primitive _ => 5
  | Command.set_scissor _ => 6
  | Command.set_depth_stencil _ _ _ => 7
  | Command.set_blend _ => 8
  | Command.set_color_mask _ => 9
  | Command.bind_array_buffer _ => 10
  | Command.bind_attribute _ _ _ _ _ _ => 11
  | Command.bind_uniform _ _ => 12
  | Command.bind_uniform_block _ _ _ _ => 13
  | Command.bind_texture _ _ _ _ => 14
  | Command.bind_index _ => 15
  | Command.call_draw _ _ _ => 16
  | Command.call_draw_indexed _ _ _ _ => 16

/-- Count of commands of a given kind. -/
def count_tag (k : Nat) (l : List Command) : Nat :=
  l.countP (fun c => cmd_tag c == k)

/-- The attachment point a slot addresses (color indices go through the
`i as u8` cast of the source). -/
def slot_target : Slot → Target
  | Slot.color i => Target.TargetColor (i % 256)
  | Slot.depth => Target.TargetDepth
  | Slot.stencil => Target.TargetStencil

/-! Concrete fixtures used by the witness theorems. -/

/-- Example renderer: no common array buffer, frame-buffer handles 1/2. -/
def exRenderer : Renderer := create_renderer none 1 2

/-- Example non-default frame with a surface bound at color slot 0. -/
def exFrame1 : Frame :=
  { width := 640, height := 480,
    colors := [Plane.PlaneSurface 7, Plane.PlaneEmpty, Plane.PlaneEmpty,
               Plane.PlaneEmpty],
    depth := Plane.PlaneEmpty, stencil := Plane.PlaneEmpty }

/-- Like `exFrame1` but with a different surface at color slot 0. -/
def exFrame2 : Frame :=
  { exFrame1 with
    colors := [Plane.PlaneSurface 8, Plane.PlaneEmpty, Plane.PlaneEmpty,
               Plane.PlaneEmpty] }

/-- Example default frame. -/
def exFrameD : Frame := Frame.new 640 480

/-- Example program declaring uniforms named A and B with only B supplied. -/
def exProgramAB : Program :=
  { prog_name := 9,
    info := { attributes := [],
              uniforms := [{ name := "A", location := 0 },
                           { name := "B", location := 1 }],
              blocks := [{ name := "blk" }],
              textures := [] },
    uniform_values := [none, some (UniformValue.ValueOther 0)],
    block_values := [some 4],
    texture_values := [] }

/-- Example program declaring one supplied uniform, one attribute, and no
blocks or textures. -/
def exProgramOK : Program :=
  { prog_name := 9,
    info := { attributes := [{ name := "position", location := 0,
                               base_type := 0 }],
              uniforms := [{ name := "u", location := 0 }],
              blocks := [],
              textures := [] },
    uniform_values := [some (UniformValue.ValueOther 3)],
    block_values := [],
    texture_values := [] }

/-- Example mesh carrying the attribute `exProgramOK` declares. -/
def exMesh : Mesh :=
  { num_vertices := 3,
    attributes := [{ name := "position", buffer := 5, elem_count := 3,
                     elem_type := 0, stride := 12, offset := 0 }] }

/-- Example mesh with no attributes at all. -/
def exMeshBad : Mesh := { num_vertices := 3, attributes := [] }

/-- Example compatibility predicate accepting every element-type pair. -/
def exCompat : Nat → Nat → Bool := fun _ _ => true

/-- The observable fields of a renderer: the recorded commands, the shared
resource handles, and the shadow frame (everything except the dead
`draw_state` cache, which no operation ever reads). -/
def Renderer.obs (r : Renderer) :
    List Command × Option Nat × Nat × Nat × Frame :=
  (r.buf, r.common_array_buffer, r.common_frame_buffer,
   r.default_frame_buffer, r.state.frame)

/-- The commands one `draw` call appends to the renderer's buffer. -/
def draw_delta (compat : Nat → Nat → Bool) (r : Renderer) (m : Mesh)
    (sl : Slice) (f : Frame) (p : Program) (st : DrawState) : List Command :=
  (Renderer.draw compat r m sl f p st).1.buf.drop r.buf.length

/-!  Characterization lemmas: each operation appends a command delta that
is a function of the renderer's non-buffer fields, and returns the error
described by the matching spec-side function. -/

theorem diff_colors_eq (l : List (Nat × (Plane × Plane))) :
    ∀ buf, diff_colors buf l = buf ++ l.filterMap color_diff_cmd := by
  induction l with
  | nil => intro buf; simp [diff_colors]
  | cons x rest ih =>
    intro buf
    by_cases h : x.2.1 = x.2.2
    · simp [diff_colors, color_diff_cmd, h, ih]
    · simp [diff_colors, color_diff_cmd, h, ih, bind_target]

theorem bind_frame_eq (r : Renderer) (f : Frame) :
    r.bind_frame f =
      { r with
        buf := r.buf ++ frame_cmds r.state.frame r.common_frame_buffer
                 r.default_frame_buffer f,
        state := { r.state with
          frame := if f.is_default then r.state.frame else f } } := by
  unfold Renderer.bind_frame frame_cmds frame_rest
  by_cases hd : f.is_default
  · simp [hd]
  · by_cases h1 : r.state.frame.depth = f.depth <;>
    by_cases h2 : r.state.frame.stencil = f.stencil <;>
    simp [hd, h1, h2, diff_colors_eq, bind_target]

theorem bind_uniforms_eq (l : List (UniformVar × Option UniformValue)) :
    ∀ buf, bind_uniforms buf l = (buf ++ uniform_cmds l, uniform_error l) := by
  induction l with
  | nil => intro buf; simp [bind_uniforms, uniform_cmds, uniform_error]
  | cons x rest ih =>
    intro buf
    obtain ⟨var, opt⟩ := x
    cases opt with
    | some v => simp [bind_uniforms, uniform_cmds, uniform_error, ih]
    | none => simp [bind_uniforms, uniform_cmds, uniform_error]

theorem bind_blocks_eq (pn : Nat) (l : List (Nat × (BlockVar × Option Nat))) :
    ∀ buf, bind_blocks pn buf l = (buf ++ block_cmds pn l, block_error l) := by
  induction l with
  | nil => intro buf; simp [bind_blocks, block_cmds, block_error]
  | cons x rest ih =>
    intro buf
    obtain ⟨i, var, opt⟩ := x
    cases opt with
    | some b => simp [bind_blocks, block_cmds, block_error, ih]
    | none => simp [bind_blocks, block_cmds, block_error]

theorem bind_textures_eq
    (l : List (Nat × (SamplerVar × Option (TextureHandle × Nat)))) :
    ∀ buf, bind_textures buf l = (buf ++ texture_cmds l, texture_error l) := by
  induction l with
  | nil => intro buf; simp [bind_textures, texture_cmds, texture_error]
  | cons x rest ih =>
    intro buf
    obtain ⟨i, var, opt⟩ := x
    cases opt with
    | some ts => simp [bind_textures, texture_cmds, texture_error, ih]
    | none => simp [bind_textures, texture_cmds, texture_error]

theorem bind_program_eq (r : Renderer) (p : Program) :
    r.bind_program p =
      ({ r with buf := r.buf ++ program_cmds p }, program_error p) := by
  unfold Renderer.bind_program program_cmds program_error
  simp only [bind_uniforms_eq, bind_blocks_eq, bind_textures_eq]
  cases hu : uniform_error (List.zip p.info.uniforms p.uniform_values) with
  | some e => simp [hu]
  | none =>
    cases hb : block_error ((List.zip p.info.blocks p.block_values).enum) with
    | some e => simp [hu, hb]
    | none => simp [hu, hb]

theorem bind_attributes_eq (compat : Nat → Nat → Bool)
    (attrs : List Attribute) (sats : List AttributeVar) :
    ∀ buf, bind_attributes compat attrs buf sats =
      (buf ++ attr_cmds compat attrs sats, attr_error compat attrs sats) := by
  induction sats with
  | nil => intro buf; simp [bind_attributes, attr_cmds, attr_error]
  | cons sat rest ih =>
    intro buf
    cases hf : attrs.find? (fun a => a.name == sat.name) with
    | none =>
      have hok : attr_ok compat attrs sat = false := by
        simp [attr_ok, resolve_attr, hf]
      simp [bind_attributes, hf, attr_cmds, attr_error, hok, resolve_attr]
    | some vat =>
      by_cases hc : compat vat.elem_type sat.base_type
      · have hok : attr_ok compat attrs sat = true := by
          simp [attr_ok, resolve_attr, hf, hc]
        simp [bind_attributes, hf, hc, attr_cmds, attr_error, hok,
          resolve_attr, ih, Except.toOption]
      · have hok : attr_ok compat attrs sat = false := by
          simp [attr_ok, resolve_attr, hf, hc]
        simp [bind_attributes, hf, hc, attr_cmds, attr_error, hok,
          resolve_attr]

theorem bind_mesh_eq (compat : Nat → Nat → Bool) (r : Renderer) (m : Mesh)
    (info : ProgramInfo) :
    Renderer.bind_mesh compat r m info =
      ({ r with buf := r.buf ++ mesh_cmds compat r.common_array_buffer m info },
       attr_error compat m.attributes info.attributes) := by
  unfold Renderer.bind_mesh mesh_cmds array_buffer_cmds
  cases hab : r.common_array_buffer <;>
    simp [hab, bind_attributes_eq]

theorem draw_slice_eq (r : Renderer) (sl : Slice) :
    r.draw_slice sl = { r with buf := r.buf ++ slice_cmds sl } := by
  cases sl <;> rfl

theorem clear_eq (r : Renderer) (d : Nat) (f : Frame) :
    r.clear d f =
      { r with
        buf := r.buf ++ frame_cmds r.state.frame r.common_frame_buffer
                 r.default_frame_buffer f ++ [Command.call_clear d],
        state := { r.state with
          frame := if f.is_default then r.state.frame else f } } := by
  unfold Renderer.clear
  rw [bind_frame_eq]

theorem draw_eq (compat : Nat → Nat → Bool) (r : Renderer) (m : Mesh)
    (sl : Slice) (f : Frame) (p : Program) (st : DrawState) :
    Renderer.draw compat r m sl f p st =
      ({ r with
         buf := r.buf ++ draw_cmds compat r.common_array_buffer
                  r.common_frame_buffer r.default_frame_buffer
                  r.state.frame m sl f p st,
         state := { r.state with
           frame := if f.is_default then r.state.frame else f } },
       draw_error_spec compat m p) := by
  unfold Renderer.draw draw_cmds draw_error_spec
  simp only [bind_frame_eq, bind_program_eq, bind_mesh_eq, draw_slice_eq]
  cases hpe : program_error p with
  | some e => simp [hpe]
  | none =>
    cases ha : attr_error compat m.attributes p.info.attributes with
    | some e => simp [hpe, ha, ff_cmds]
    | none => simp [hpe, ha, ff_cmds]

/-! Lemmas about the color-slot diff list. -/

theorem is_attach_target_cmd (tgt : Target) (p : Plane) :
    is_attach_cmd (target_cmd tgt p) = true := by
  cases p <;> rfl

theorem cmd_tag_target_cmd (tgt : Target) (p : Plane) :
    cmd_tag (target_cmd tgt p) = 3 := by
  cases p <;> rfl

theorem diff_none (xs : List Plane) :
    ∀ (ys : List Plane) (k : Nat), xs.length = ys.length →
      (∀ i, xs.get? i = ys.get? i) →
      ((xs.zip ys).enumFrom k).filterMap color_diff_cmd = [] := by
  induction xs with
  | nil =>
    intro ys k hlen _
    cases ys with
    | nil => simp
    | cons y yt => simp at hlen
  | cons x xt ih =>
    intro ys k hlen heq
    cases ys with
    | nil => simp at hlen
    | cons y yt =>
      have h0 : x = y := by have := heq 0; simpa using this
      have ht : ∀ i, xt.get? i = yt.get? i := by
        intro i; have := heq (i + 1); simpa using this
      rw [List.zip_cons_cons, List.enumFrom_cons, List.filterMap_cons]
      have hcd : color_diff_cmd (k, (x, y)) = none := by
        simp [color_diff_cmd, h0]
      rw [hcd]
      exact ih yt (k + 1) (by simpa using hlen) ht

theorem diff_single (xs : List Plane) :
    ∀ (ys : List Plane) (k j : Nat), xs.length = ys.length →
      xs.get? j ≠ ys.get? j →
      (∀ i, i ≠ j → xs.get? i = ys.get? i) →
      ∃ p, ys.get? j = some p ∧
        ((xs.zip ys).enumFrom k).filterMap color_diff_cmd
          = [target_cmd (Target.TargetColor ((k + j) % 256)) p] := by
  induction xs with
  | nil =>
    intro ys k j hlen hne _
    cases ys with
    | nil => simp at hne
    | cons y yt => simp at hlen
  | cons x xt ih =>
    intro ys k j hlen hne hsame
    cases ys with
    | nil => simp at hlen
    | cons y yt =>
      cases j with
      | zero =>
        have hxy : x ≠ y := by simpa using hne
        have heq : ∀ i, xt.get? i = yt.get? i := by
          intro i
          have := hsame (i + 1) (by omega)
          simpa using this
        refine ⟨y, by simp, ?_⟩
        rw [List.zip_cons_cons, List.enumFrom_cons, List.filterMap_cons]
        have hcd : color_diff_cmd (k, (x, y))
            = some (target_cmd (Target.TargetColor (k % 256)) y) := by
          simp [color_diff_cmd, hxy]
        rw [hcd, diff_none xt yt (k + 1) (by simpa using hlen) heq]
        simp
      | succ j0 =>
        have hxy : x = y := by
          have := hsame 0 (by omega)
          simpa using this
        have hlen' : xt.length = yt.length := by simpa using hlen
        have hne' : xt.get? j0 ≠ yt.get? j0 := by simpa using hne
        have hsame' : ∀ i, i ≠ j0 → xt.get? i = yt.get? i := by
          intro i hi
          have h2 : i + 1 ≠ j0 + 1 := by omega
          have := hsame (i + 1) h2
          simpa using this
        obtain ⟨p, hp, hlist⟩ := ih yt (k + 1) j0 hlen' hne' hsame'
        have harith : k + 1 + j0 = k + (j0 + 1) := by omega
        refine ⟨p, by simpa using hp, ?_⟩
        rw [harith] at hlist
        rw [List.zip_cons_cons, List.enumFrom_cons, List.filterMap_cons]
        have hcd : color_diff_cmd (k, (x, y)) = none := by
          simp [color_diff_cmd, hxy]
        rw [hcd]
        exact hlist

theorem mem_color_diff_attach (l : List (Nat × (Plane × Plane))) :
    ∀ c ∈ l.filterMap color_diff_cmd, is_attach_cmd c = true := by
  intro c hc
  rw [List.mem_filterMap] at hc
  obtain ⟨x, _, hfx⟩ := hc
  unfold color_diff_cmd at hfx
  split at hfx
  · cases hfx
    exact is_attach_target_cmd _ _
  · simp at hfx

theorem filter_attach_frame_cmds (shadow : Frame) (cfb dfb : Nat) (f : Frame) :
    (frame_cmds shadow cfb dfb f).filter is_attach_cmd =
      if f.is_default then []
      else
        ((List.zip shadow.colors f.colors).enum).filterMap color_diff_cmd ++
        (if shadow.depth ≠ f.depth then
          [target_cmd Target.TargetDepth f.depth] else []) ++
        (if shadow.stencil ≠ f.stencil then
          [target_cmd Target.TargetStencil f.stencil] else []) := by
  by_cases hd : f.is_default
  · simp [frame_cmds, frame_rest, hd, is_attach_cmd]
  · have hall : ∀ c ∈
        (((List.zip shadow.colors f.colors).enum).filterMap color_diff_cmd ++
         (if shadow.depth ≠ f.depth then
           [target_cmd Target.TargetDepth f.depth] else []) ++
         (if shadow.stencil ≠ f.stencil then
           [target_cmd Target.TargetStencil f.stencil] else [])),
        is_attach_cmd c = true := by
      intro c hc
      rcases List.mem_append.mp hc with hc2 | hc2
      · rcases List.mem_append.mp hc2 with hc3 | hc3
        · exact mem_color_diff_attach _ c hc3
        · split at hc3
          · rw [List.mem_singleton] at hc3
            subst hc3
            exact is_attach_target_cmd _ _
          · simp at hc3
      · split at hc2
        · rw [List.mem_singleton] at hc2
          subst hc2
          exact is_attach_target_cmd _ _
        · simp at hc2
    unfold frame_cmds frame_rest
    rw [if_neg hd, if_neg hd]
    exact List.filter_eq_self.mpr hall

/-- Claim C1: for non-default frames F1, F2 that agree at every attachment
slot except one, binding F1 and then F2 makes the second call emit exactly
one attachment bind/unbind command, addressed at the differing slot and
carrying F2's plane there, and none for the unchanged slots. -/
theorem C1_second_bind_emits_single_diff (r : Renderer) (F1 F2 : Frame)
    (s : Slot)
    (h1 : F1.is_default = false) (h2 : F2.is_default = false)
    (hlen : F1.colors.length = F2.colors.length)
    (hdiff : F1.attachment s ≠ F2.attachment s)
    (hsame : ∀ t, t ≠ s → F1.attachment t = F2.attachment t) :
    ∃ p, F2.attachment s = some p ∧
      ((((r.bind_frame F1).bind_frame F2).buf.drop
          (r.bind_frame F1).buf.length).filter is_attach_cmd)
        = [target_cmd (slot_target s) p] := by
  rw [bind_frame_eq, bind_frame_eq]
  simp only [h1, Bool.false_eq_true, if_false]
  rw [List.drop_left, filter_attach_frame_cmds]
  simp only [h2, Bool.false_eq_true, if_false]
  cases s with
  | color j =>
    have hdep : F1.depth = F2.depth := by
      have := hsame Slot.depth (by simp)
      simpa [Frame.attachment] using this
    have hst : F1.stencil = F2.stencil := by
      have := hsame Slot.stencil (by simp)
      simpa [Frame.attachment] using this
    have hne : F1.colors.get? j ≠ F2.colors.get? j := by
      simpa [Frame.attachment] using hdiff
    have hsc : ∀ i, i ≠ j → F1.colors.get? i = F2.colors.get? i := by
      intro i hi
      have hij : Slot.color i ≠ Slot.color j := by simpa using hi
      have := hsame (Slot.color i) hij
      simpa [Frame.attachment] using this
    obtain ⟨p, hp, hl⟩ := diff_single F1.colors F2.colors 0 j hlen hne hsc
    refine ⟨p, by simpa [Frame.attachment] using hp, ?_⟩
    simp [List.enum, hdep, hst, hl, slot_target]
  | depth =>
    have hst : F1.stencil = F2.stencil := by
      have := hsame Slot.stencil (by simp)
      simpa [Frame.attachment] using this
    have hcol : ∀ i, F1.colors.get? i = F2.colors.get? i := by
      intro i
      have := hsame (Slot.color i) (by simp)
      simpa [Frame.attachment] using this
    have hdep : F1.depth ≠ F2.depth := by
      simpa [Frame.attachment] using hdiff
    refine ⟨F2.depth, by simp [Frame.attachment], ?_⟩
    simp [List.enum, diff_none F1.colors F2.colors 0 hlen hcol, hdep, hst,
      slot_target]
  | stencil =>
    have hdep : F1.depth = F2.depth := by
      have := hsame Slot.depth (by simp)
      simpa [Frame.attachment] using this
    have hcol : ∀ i, F1.colors.get? i = F2.colors.get? i := by
      intro i
      have := hsame (Slot.color i) (by simp)
      simpa [Frame.attachment] using this
    have hstn : F1.stencil ≠ F2.stencil := by
      simpa [Frame.attachment] using hdiff
    refine ⟨F2.stencil, by simp [Frame.attachment], ?_⟩
    simp [List.enum, diff_none F1.colors F2.colors 0 hlen hcol, hdep, hstn,
      slot_target]

/-- Claim C1 witness: concrete renderer and frames differing only at color
slot 0. -/
theorem C1_witness :
    ∃ p, exFrame2.attachment (Slot.color 0) = some p ∧
      ((((exRenderer.bind_frame exFrame1).bind_frame exFrame2).buf.drop
          (exRenderer.bind_frame exFrame1).buf.length).filter is_attach_cmd)
        = [target_cmd (slot_target (Slot.color 0)) p] := by
  refine C1_second_bind_emits_single_diff exRenderer exFrame1 exFrame2
    (Slot.color 0) (by decide) (by decide) (by decide) (by decide) ?_
  intro t ht
  cases t with
  | color i =>
    cases i with
    | zero => exact absurd rfl ht
    | succ n => rfl
  | depth => rfl
  | stencil => rfl

/-- Claim C2: after `bind_frame` with a non-default frame the shadow frame
equals the requested frame in full; after `bind_frame` with the default
frame it is exactly unchanged. -/
theorem C2_shadow_frame_state (r : Renderer) (f : Frame) :
    (r.bind_frame f).state.frame =
      if f.is_default then r.state.frame else f := by
  rw [bind_frame_eq]

/-- Claim C3: binding the default frame emits only the viewport and
default-frame-buffer commands (no attachment bind/unbind), leaves the whole
cached state untouched, and a subsequent non-default bind emits exactly the
same command delta as it would have before the default-frame call. -/
theorem C3_default_frame_preserves_shadow (r : Renderer) (d : Frame)
    (hd : d.is_default = true) :
    (r.bind_frame d).buf
        = r.buf ++ [Command.set_viewport 0 0 d.width d.height,
                    Command.bind_frame_buffer r.default_frame_buffer]
    ∧ (r.bind_frame d).state = r.state
    ∧ ∀ f, f.is_default = false →
        ((r.bind_frame d).bind_frame f).buf.drop (r.bind_frame d).buf.length
          = (r.bind_frame f).buf.drop r.buf.length := by
  refine ⟨?_, ?_, ?_⟩
  · rw [bind_frame_eq]
    simp [frame_cmds, frame_rest, hd]
  · rw [bind_frame_eq]
    simp [hd]
  · intro f hf
    simp only [bind_frame_eq, hd, if_true]
    simp [List.drop_left]

/-! Shape lemmas for the parameter errors. -/

theorem uniform_error_shape (l : List (UniformVar × Option UniformValue))
    (e : ParameterError) (h : uniform_error l = some e) :
    ∃ n, e = ParameterError.ErrorParamUniform n := by
  unfold uniform_error at h
  cases hf : l.find? (fun x => x.2.isNone) with
  | none => rw [hf] at h; simp at h
  | some x =>
    rw [hf] at h
    simp only [Option.map_some', Option.some.injEq] at h
    exact ⟨x.1.name, h.symm⟩

theorem block_error_shape (l : List (Nat × (BlockVar × Option Nat)))
    (e : ParameterError) (h : block_error l = some e) :
    ∃ n, e = ParameterError.ErrorParamBlock n := by
  unfold block_error at h
  cases hf : l.find? (fun x => x.2.2.isNone) with
  | none => rw [hf] at h; simp at h
  | some x =>
    rw [hf] at h
    simp only [Option.map_some', Option.some.injEq] at h
    exact ⟨x.2.1.name, h.symm⟩

theorem texture_error_shape
    (l : List (Nat × (SamplerVar × Option (TextureHandle × Nat))))
    (e : ParameterError) (h : texture_error l = some e) :
    ∃ n, e = ParameterError.ErrorParamTexture n := by
  unfold texture_error at h
  cases hf : l.find? (fun x => x.2.2.isNone) with
  | none => rw [hf] at h; simp at h
  | some x =>
    rw [hf] at h
    simp only [Option.map_some', Option.some.injEq] at h
    exact ⟨x.2.1.name, h.symm⟩

theorem program_error_not_sampler (p : Program) (n : String) :
    program_error p ≠ some (ParameterError.ErrorParamSampler n) := by
  unfold program_error
  cases hu : uniform_error (List.zip p.info.uniforms p.uniform_values) with
  | some e =>
    obtain ⟨m, rfl⟩ := uniform_error_shape _ _ hu
    simp
  | none =>
    cases hb : block_error ((List.zip p.info.blocks p.block_values).enum) with
    | some e =>
      obtain ⟨m, rfl⟩ := block_error_shape _ _ hb
      simp
    | none =>
      cases ht : texture_error
          ((List.zip p.info.textures p.texture_values).enum) with
      | some e =>
        obtain ⟨m, rfl⟩ := texture_error_shape _ _ ht
        simp
      | none => simp

/-- Claim C4: `bind_program` appends the program bind, then the uniform,
block and texture commands in that category order with declaration order
inside each category, aborting at the first absent parameter with an error
naming it (`program_cmds`/`program_error` spell this out); the
sampler-missing error variant is never produced; and for a program
declaring uniforms A, B with only B supplied it fails naming A after
emitting only the program-bind command (no block or texture resolution). -/
theorem C4_bind_program_order_and_fail_fast (r : Renderer) (p : Program) :
    ((r.bind_program p).1.buf = r.buf ++ program_cmds p
      ∧ (r.bind_program p).2 = program_error p)
    ∧ (∀ n, (r.bind_program p).2 ≠ some (ParameterError.ErrorParamSampler n))
    ∧ (∀ (pn : Nat) (A B : UniformVar) (v : UniformValue)
         (bl : List BlockVar) (bv : List (Option Nat))
         (tx : List SamplerVar) (tv : List (Option (TextureHandle × Nat)))
         (ats : List AttributeVar),
        (r.bind_program
            { prog_name := pn,
              info := { attributes := ats, uniforms := [A, B],
                        blocks := bl, textures := tx },
              uniform_values := [none, some v],
              block_values := bv, texture_values := tv }).2
          = some (ParameterError.ErrorParamUniform A.name)
        ∧ (r.bind_program
            { prog_name := pn,
              info := { attributes := ats, uniforms := [A, B],
                        blocks := bl, textures := tx },
              uniform_values := [none, some v],
              block_values := bv, texture_values := tv }).1.buf
          = r.buf ++ [Command.bind_program pn]) := by
  refine ⟨⟨?_, ?_⟩, ?_, ?_⟩
  · rw [bind_program_eq]
  · rw [bind_program_eq]
  · intro n hcontra
    rw [bind_program_eq] at hcontra
    exact program_error_not_sampler p n hcontra
  · intro pn A B v bl bv tx tv ats
    constructor
    · rw [bind_program_eq]
      simp [program_error, uniform_error]
    · rw [bind_program_eq]
      simp [program_cmds, uniform_cmds, uniform_error]

/-- Claim C4 witness: the concrete program with uniforms A, B and only B
supplied. -/
theorem C4_witness :
    ((exRenderer.bind_program exProgramAB).1.buf
        = exRenderer.buf ++ program_cmds exProgramAB
      ∧ (exRenderer.bind_program exProgramAB).2 = program_error exProgramAB)
    ∧ (exRenderer.bind_program exProgramAB).2
        ≠ some (ParameterError.ErrorParamSampler ("A"))
    ∧ (exRenderer.bind_program exProgramAB).2
        = some (ParameterError.ErrorParamUniform ("A")) := by
  obtain ⟨h1, h2, _⟩ := C4_bind_program_order_and_fail_fast exRenderer exProgramAB
  exact ⟨h1, h2 ("A"), by decide⟩

/-! Lemmas for `bind_mesh` on meshes extended with undeclared attributes. -/

theorem find?_append_none {α : Type} (p : α → Bool) (l₁ l₂ : List α)
    (h : l₂.find? p = none) :
    (l₁ ++ l₂).find? p = l₁.find? p := by
  induction l₁ with
  | nil => simpa using h
  | cons x xs ih =>
    by_cases hx : p x <;> simp [List.find?_cons, hx, ih]

theorem bind_attributes_extra (compat : Nat → Nat → Bool)
    (attrs extra : List Attribute) (sats : List AttributeVar)
    (hx : ∀ a ∈ extra, ∀ sat ∈ sats, (a.name == sat.name) = false) :
    ∀ buf, bind_attributes compat (attrs ++ extra) buf sats
      = bind_attributes compat attrs buf sats := by
  induction sats with
  | nil => intro buf; simp [bind_attributes]
  | cons sat rest ih =>
    intro buf
    have hextra : extra.find? (fun a => a.name == sat.name) = none := by
      rw [List.find?_eq_none]
      intro a ha
      simp [hx a ha sat (by simp)]
    have happ : (attrs ++ extra).find? (fun a => a.name == sat.name)
        = attrs.find? (fun a => a.name == sat.name) :=
      find?_append_none _ _ _ hextra
    have hx' : ∀ a ∈ extra, ∀ s ∈ rest, (a.name == s.name) = false := by
      intro a ha s hs
      exact hx a ha s (by simp [hs])
    cases hf : attrs.find? (fun a => a.name == sat.name) with
    | none => simp [bind_attributes, happ, hf]
    | some vat =>
      by_cases hc : compat vat.elem_type sat.base_type <;>
        simp [bind_attributes, happ, hf, hc, ih hx']

/-- Claim C5: `bind_mesh` walks the program's declared attributes in order
(after the optional common-array-buffer bind), resolving each against the
mesh: a name with no exact match aborts with a missing-attribute error
carrying the name, an incompatible element type aborts with the nameless
type error, and a match emits one attribute-bind command carrying the
shader location and the mesh attribute's buffer, count, type, stride and
offset; mesh attributes whose names the program does not declare never
affect the result. -/
theorem C5_bind_mesh_resolution (compat : Nat → Nat → Bool) (r : Renderer)
    (m : Mesh) (info : ProgramInfo) :
    ((Renderer.bind_mesh compat r m info).1.buf
        = r.buf ++ array_buffer_cmds r.common_array_buffer
            ++ attr_cmds compat m.attributes info.attributes
      ∧ (Renderer.bind_mesh compat r m info).2
        = attr_error compat m.attributes info.attributes)
    ∧ (∀ sat : AttributeVar,
        (m.attributes.find? (fun a => a.name == sat.name) = none →
          resolve_attr compat m.attributes sat
            = Except.error (MeshError.ErrorAttributeMissing sat.name))
        ∧ (∀ vat, m.attributes.find? (fun a => a.name == sat.name) = some vat →
            compat vat.elem_type sat.base_type = false →
            resolve_attr compat m.attributes sat
              = Except.error MeshError.ErrorAttributeType)
        ∧ (∀ vat, m.attributes.find? (fun a => a.name == sat.name) = some vat →
            compat vat.elem_type sat.base_type = true →
            resolve_attr compat m.attributes sat
              = Except.ok (Command.bind_attribute sat.location vat.buffer
                  vat.elem_count vat.elem_type vat.stride vat.offset)))
    ∧ (∀ extra : List Attribute,
        (∀ a ∈ extra, ∀ sat ∈ info.attributes, a.name ≠ sat.name) →
        Renderer.bind_mesh compat r
            { m with attributes := m.attributes ++ extra } info
          = Renderer.bind_mesh compat r m info) := by
  refine ⟨⟨?_, ?_⟩, ?_, ?_⟩
  · rw [bind_mesh_eq]
    simp [mesh_cmds]
  · rw [bind_mesh_eq]
  · intro sat
    refine ⟨?_, ?_, ?_⟩
    · intro hf
      simp [resolve_attr, hf]
    · intro vat hf hc
      simp [resolve_attr, hf, hc]
    · intro vat hf hc
      simp [resolve_attr, hf, hc]
  · intro extra hx
    have hb : ∀ a ∈ extra, ∀ sat ∈ info.attributes,
        (a.name == sat.name) = false := by
      intro a ha sat hs
      exact beq_eq_false_iff_ne.mpr (hx a ha sat hs)
    unfold Renderer.bind_mesh
    simp only [bind_attributes_extra compat m.attributes extra
      info.attributes hb]

/-- Claim C5 witness: a mesh without the declared attribute fails naming
it; adding an undeclared attribute changes nothing. -/
theorem C5_witness :
    ((Renderer.bind_mesh exCompat exRenderer exMeshBad exProgramOK.info).1.buf
        = exRenderer.buf ++ array_buffer_cmds exRenderer.common_array_buffer
            ++ attr_cmds exCompat exMeshBad.attributes
                exProgramOK.info.attributes
      ∧ (Renderer.bind_mesh exCompat exRenderer exMeshBad
            exProgramOK.info).2
        = attr_error exCompat exMeshBad.attributes
            exProgramOK.info.attributes)
    ∧ resolve_attr exCompat exMeshBad.attributes
        { name := "position", location := 0, base_type := 0 }
      = Except.error (MeshError.ErrorAttributeMissing ("position"))
    ∧ Renderer.bind_mesh exCompat exRenderer
        { exMeshBad with attributes := exMeshBad.attributes ++
            [{ name := "extra", buffer := 6, elem_count := 1,
               elem_type := 0, stride := 4, offset := 0 }] }
        exProgramOK.info
      = Renderer.bind_mesh exCompat exRenderer exMeshBad exProgramOK.info := by
  obtain ⟨h1, h2, h3⟩ :=
    C5_bind_mesh_resolution exCompat exRenderer exMeshBad exProgramOK.info
  refine ⟨h1, ?_, ?_⟩
  · exact (h2 { name := "position", location := 0, base_type := 0 }).1
      (by decide)
  · exact h3 [Attribute.mk ("extra") 6 1 0 4 0] (by decide)

/-- Claim C8: `draw_slice` emits for a vertex slice exactly one draw
command with the topology and range and nothing else (in particular no
index-buffer bind), and for an 8/16/32-bit indexed slice exactly an
index-buffer bind immediately followed by one indexed-draw command tagged
with the matching element width and carrying topology and range. -/
theorem C8_draw_slice_dispatch (r : Renderer) (prim b s e : Nat) :
    (r.draw_slice (Slice.VertexSlice prim s e)).buf
        = r.buf ++ [Command.call_draw prim s e]
    ∧ (r.draw_slice (Slice.IndexSlice8 prim b s e)).buf
        = r.buf ++ [Command.bind_index b,
            Command.call_draw_indexed prim IndexType.U8 s e]
    ∧ (r.draw_slice (Slice.IndexSlice16 prim b s e)).buf
        = r.buf ++ [Command.bind_index b,
            Command.call_draw_indexed prim IndexType.U16 s e]
    ∧ (r.draw_slice (Slice.IndexSlice32 prim b s e)).buf
        = r.buf ++ [Command.bind_index b,
            Command.call_draw_indexed prim IndexType.U32 s e] :=
  ⟨rfl, rfl, rfl, rfl⟩

/-! Command-kind lemmas used for counting and for the draw-free parts of
the failure claims. -/

theorem tag_ne_draw (c : Command) (h : cmd_tag c ≠ 16) :
    is_draw_cmd c = false := by
  cases c <;> simp_all [cmd_tag, is_draw_cmd]

theorem frame_rest_tags (shadow : Frame) (cfb dfb : Nat) (f : Frame) :
    ∀ c ∈ frame_rest shadow cfb dfb f, cmd_tag c = 2 ∨ cmd_tag c = 3 := by
  intro c hc
  unfold frame_rest at hc
  split at hc
  · rw [List.mem_singleton] at hc
    subst hc
    exact Or.inl rfl
  · rcases List.mem_cons.mp hc with rfl | hc2
    · exact Or.inl rfl
    · rcases List.mem_append.mp hc2 with hc3 | hc3
      · rcases List.mem_append.mp hc3 with hc4 | hc4
        · rw [List.mem_filterMap] at hc4
          obtain ⟨x, _, hfx⟩ := hc4
          unfold color_diff_cmd at hfx
          split at hfx
          · cases hfx
            exact Or.inr (cmd_tag_target_cmd _ _)
          · simp at hfx
        · split at hc4
          · rw [List.mem_singleton] at hc4
            subst hc4
            exact Or.inr (cmd_tag_target_cmd _ _)
          · simp at hc4
      · split at hc3
        · rw [List.mem_singleton] at hc3
          subst hc3
          exact Or.inr (cmd_tag_target_cmd _ _)
        · simp at hc3

theorem frame_cmds_tags (shadow : Frame) (cfb dfb : Nat) (f : Frame) :
    ∀ c ∈ frame_cmds shadow cfb dfb f,
      cmd_tag c = 0 ∨ cmd_tag c = 2 ∨ cmd_tag c = 3 := by
  intro c hc
  unfold frame_cmds at hc
  rcases List.mem_cons.mp hc with rfl | hc2
  · exact Or.inl rfl
  · exact Or.inr (frame_rest_tags shadow cfb dfb f c hc2)

theorem uniform_cmds_tags (l : List (UniformVar × Option UniformValue)) :
    ∀ c ∈ uniform_cmds l, cmd_tag c = 12 := by
  intro c hc
  unfold uniform_cmds at hc
  rw [List.mem_filterMap] at hc
  obtain ⟨x, _, hfx⟩ := hc
  cases hx : x.2 with
  | none => rw [hx] at hfx; simp at hfx
  | some v =>
    rw [hx] at hfx
    simp only [Option.map_some', Option.some.injEq] at hfx
    rw [← hfx]
    rfl

theorem block_cmds_tags (pn : Nat) (l : List (Nat × (BlockVar × Option Nat))) :
    ∀ c ∈ block_cmds pn l, cmd_tag c = 13 := by
  intro c hc
  unfold block_cmds at hc
  rw [List.mem_filterMap] at hc
  obtain ⟨x, _, hfx⟩ := hc
  cases hx : x.2.2 with
  | none => rw [hx] at hfx; simp at hfx
  | some b =>
    rw [hx] at hfx
    simp only [Option.map_some', Option.some.injEq] at hfx
    rw [← hfx]
    rfl

theorem texture_cmds_tags
    (l : List (Nat × (SamplerVar × Option (TextureHandle × Nat)))) :
    ∀ c ∈ texture_cmds l, cmd_tag c = 12 ∨ cmd_tag c = 14 := by
  intro c hc
  unfold texture_cmds at hc
  rw [List.mem_flatMap] at hc
  obtain ⟨x, _, hcx⟩ := hc
  cases hx : x.2.2 with
  | none => rw [hx] at hcx; simp at hcx
  | some ts =>
    rw [hx] at hcx
    rcases List.mem_cons.mp hcx with rfl | hcx2
    · exact Or.inl rfl
    · rw [List.mem_singleton] at hcx2
      subst hcx2
      exact Or.inr rfl

theorem program_cmds_tags (p : Program) :
    ∀ c ∈ program_cmds p,
      cmd_tag c = 4 ∨ cmd_tag c = 12 ∨ cmd_tag c = 13 ∨ cmd_tag c = 14 := by
  intro c hc
  unfold program_cmds at hc
  rcases List.mem_cons.mp hc with rfl | hc2
  · exact Or.inl rfl
  · rcases List.mem_append.mp hc2 with hc3 | hc3
    · exact Or.inr (Or.inl (uniform_cmds_tags _ c hc3))
    · split at hc3
      · simp at hc3
      · rcases List.mem_append.mp hc3 with hc4 | hc4
        · exact Or.inr (Or.inr (Or.inl (block_cmds_tags _ _ c hc4)))
        · split at hc4
          · simp at hc4
          · rcases texture_cmds_tags _ c hc4 with h | h
            · exact Or.inr (Or.inl h)
            · exact Or.inr (Or.inr (Or.inr h))

theorem ff_cmds_tags (st : DrawState) :
    ∀ c ∈ ff_cmds st,
      cmd_tag c = 5 ∨ cmd_tag c = 6 ∨ cmd_tag c = 7 ∨ cmd_tag c = 8 ∨
        cmd_tag c = 9 := by
  intro c hc
  simp only [ff_cmds, List.mem_cons, List.not_mem_nil, or_false] at hc
  rcases hc with rfl | rfl | rfl | rfl | rfl <;> simp [cmd_tag]

theorem resolve_attr_ok_tag (compat : Nat → Nat → Bool)
    (attrs : List Attribute) (sat : AttributeVar) (c : Command)
    (h : resolve_attr compat attrs sat = Except.ok c) : cmd_tag c = 11 := by
  unfold resolve_attr at h
  split at h
  · simp at h
  · split at h
    · cases h
      rfl
    · simp at h

theorem attr_cmds_tags (compat : Nat → Nat → Bool) (attrs : List Attribute)
    (sats : List AttributeVar) :
    ∀ c ∈ attr_cmds compat attrs sats, cmd_tag c = 11 := by
  intro c hc
  unfold attr_cmds at hc
  rw [List.mem_filterMap] at hc
  obtain ⟨sat, _, hfx⟩ := hc
  cases hres : resolve_attr compat attrs sat with
  | error e => rw [hres] at hfx; simp [Except.toOption] at hfx
  | ok c2 =>
    rw [hres] at hfx
    simp only [Except.toOption, Option.some.injEq] at hfx
    subst hfx
    exact resolve_attr_ok_tag compat attrs sat c2 hres

theorem mesh_cmds_tags (compat : Nat → Nat → Bool) (cab : Option Nat)
    (m : Mesh) (info : ProgramInfo) :
    ∀ c ∈ mesh_cmds compat cab m info,
      cmd_tag c = 10 ∨ cmd_tag c = 11 := by
  intro c hc
  unfold mesh_cmds array_buffer_cmds at hc
  rcases List.mem_append.mp hc with hc2 | hc2
  · split at hc2
    · rw [List.mem_singleton] at hc2
      subst hc2
      exact Or.inl rfl
    · simp at hc2
  · exact Or.inr (attr_cmds_tags compat m.attributes info.attributes c hc2)

theorem slice_cmds_tags (sl : Slice) :
    ∀ c ∈ slice_cmds sl, cmd_tag c = 15 ∨ cmd_tag c = 16 := by
  intro c hc
  cases sl <;>
    simp only [slice_cmds, List.mem_cons, List.not_mem_nil, or_false] at hc
  · rcases hc with rfl
    exact Or.inr rfl
  all_goals rcases hc with rfl | rfl
  all_goals first
    | exact Or.inl rfl
    | exact Or.inr rfl

/-! Counting lemmas. -/

theorem count_tag_append (k : Nat) (l1 l2 : List Command) :
    count_tag k (l1 ++ l2) = count_tag k l1 + count_tag k l2 := by
  simp [count_tag, List.countP_append]

theorem count_tag_eq_zero (k : Nat) (l : List Command)
    (h : ∀ c ∈ l, cmd_tag c ≠ k) : count_tag k l = 0 := by
  unfold count_tag
  rw [List.countP_eq_zero]
  intro c hc
  simpa using h c hc

theorem count_tag_eq_length (k : Nat) (l : List Command)
    (h : ∀ c ∈ l, cmd_tag c = k) : count_tag k l = l.length := by
  unfold count_tag
  rw [List.countP_eq_length]
  intro c hc
  simpa using h c hc

theorem count_tag_cons (k : Nat) (x : Command) (l : List Command) :
    count_tag k (x :: l)
      = count_tag k l + (if cmd_tag x = k then 1 else 0) := by
  unfold count_tag
  rw [List.countP_cons]
  congr 1
  by_cases h : cmd_tag x = k <;> simp [h]

theorem count_frame_viewport (shadow : Frame) (cfb dfb : Nat) (f : Frame) :
    count_tag 0 (frame_cmds shadow cfb dfb f) = 1 := by
  unfold frame_cmds
  rw [count_tag_cons, count_tag_eq_zero 0 _ (fun c hc => by
    rcases frame_rest_tags shadow cfb dfb f c hc with h | h <;> omega)]
  rfl

theorem count_frame_ne (shadow : Frame) (cfb dfb : Nat) (f : Frame) (k : Nat)
    (h0 : k ≠ 0) (h2 : k ≠ 2) (h3 : k ≠ 3) :
    count_tag k (frame_cmds shadow cfb dfb f) = 0 :=
  count_tag_eq_zero k _ (fun c hc => by
    rcases frame_cmds_tags shadow cfb dfb f c hc with h | h | h <;> omega)

theorem count_uniform_ne (l : List (UniformVar × Option UniformValue))
    (k : Nat) (h : k ≠ 12) : count_tag k (uniform_cmds l) = 0 :=
  count_tag_eq_zero k _ (fun c hc => by
    have := uniform_cmds_tags l c hc; omega)

theorem attr_error_none_all_ok (compat : Nat → Nat → Bool)
    (attrs : List Attribute) :
    ∀ sats : List AttributeVar, attr_error compat attrs sats = none →
      ∀ sat ∈ sats, attr_ok compat attrs sat = true := by
  intro sats
  induction sats with
  | nil => intro _ sat h; simp at h
  | cons s rest ih =>
    intro h sat hmem
    by_cases hs : attr_ok compat attrs s
    · rcases List.mem_cons.mp hmem with rfl | hmem2
      · exact hs
      · refine ih ?_ sat hmem2
        unfold attr_error at h ⊢
        rwa [List.dropWhile_cons_of_pos hs] at h
    · exfalso
      unfold attr_error at h
      rw [List.dropWhile_cons_of_neg (by simpa using hs)] at h
      simp only [List.head?_cons] at h
      cases hres : resolve_attr compat attrs s with
      | ok c => simp [attr_ok, hres] at hs
      | error e => rw [hres] at h; simp at h

theorem attr_cmds_all_ok (compat : Nat → Nat → Bool)
    (attrs : List Attribute) :
    ∀ sats : List AttributeVar,
      (∀ sat ∈ sats, attr_ok compat attrs sat = true) →
      (attr_cmds compat attrs sats).length = sats.length := by
  intro sats
  induction sats with
  | nil => intro _; simp [attr_cmds]
  | cons s rest ih =>
    intro h
    have hs := h s (by simp)
    have hrest : ∀ sat ∈ rest, attr_ok compat attrs sat = true := by
      intro sat hm
      exact h sat (by simp [hm])
    cases hres : resolve_attr compat attrs s with
    | error e => simp [attr_ok, hres] at hs
    | ok c =>
      unfold attr_cmds at ih ⊢
      rw [List.takeWhile_cons_of_pos hs]
      simp only [List.filterMap_cons]
      have hhead : (resolve_attr compat attrs s).toOption = some c := by
        rw [hres]
        rfl
      rw [hhead]
      simp [ih hrest]

theorem count_mesh_eleven (compat : Nat → Nat → Bool) (cab : Option Nat)
    (m : Mesh) (info : ProgramInfo)
    (ha : attr_error compat m.attributes info.attributes = none) :
    count_tag 11 (mesh_cmds compat cab m info) = info.attributes.length := by
  have hok := attr_error_none_all_ok compat m.attributes info.attributes ha
  unfold mesh_cmds
  rw [count_tag_append,
    count_tag_eq_zero 11 (array_buffer_cmds cab) (fun c hc => by
      unfold array_buffer_cmds at hc
      split at hc
      · rw [List.mem_singleton] at hc; subst hc; simp [cmd_tag]
      · simp at hc),
    count_tag_eq_length 11 _ (attr_cmds_tags compat m.attributes
      info.attributes),
    attr_cmds_all_ok compat m.attributes info.attributes hok]
  simp

theorem count_mesh_ne (compat : Nat → Nat → Bool) (cab : Option Nat)
    (m : Mesh) (info : ProgramInfo) (k : Nat)
    (h10 : k ≠ 10) (h11 : k ≠ 11) :
    count_tag k (mesh_cmds compat cab m info) = 0 :=
  count_tag_eq_zero k _ (fun c hc => by
    rcases mesh_cmds_tags compat cab m info c hc with h | h <;> omega)

theorem count_slice_sixteen (sl : Slice) :
    count_tag 16 (slice_cmds sl) = 1 := by
  cases sl <;> rfl

theorem count_slice_ne (sl : Slice) (k : Nat) (h15 : k ≠ 15) (h16 : k ≠ 16) :
    count_tag k (slice_cmds sl) = 0 :=
  count_tag_eq_zero k _ (fun c hc => by
    rcases slice_cmds_tags sl c hc with h | h <;> omega)

theorem draw_error_spec_shape (compat : Nat → Nat → Bool) (m : Mesh)
    (p : Program) :
    draw_error_spec compat m p ≠ some DrawError.ErrorProgram
    ∧ draw_error_spec compat m p ≠ some DrawError.ErrorSlice := by
  unfold draw_error_spec
  cases hpe : program_error p with
  | some e => simp
  | none =>
    cases ha : attr_error compat m.attributes p.info.attributes <;> simp

/-- Claim C6: `draw` stops at the first failing phase: the result is never
the program-binding or slice error variant; a parameter-binding failure is
returned wrapped with the renderer exactly as parameter binding left it (no
fixed-function, mesh or draw command beyond what it already emitted); a
mesh-binding failure is returned wrapped and the call appends no draw
command at all. -/
theorem C6_draw_stops_at_first_failure (compat : Nat → Nat → Bool)
    (r : Renderer) (m : Mesh) (sl : Slice) (f : Frame) (p : Program)
    (st : DrawState) :
    ((Renderer.draw compat r m sl f p st).2 ≠ some DrawError.ErrorProgram
      ∧ (Renderer.draw compat r m sl f p st).2 ≠ some DrawError.ErrorSlice)
    ∧ (∀ e, program_error p = some e →
        Renderer.draw compat r m sl f p st
          = (((r.bind_frame f).bind_program p).1,
             some (DrawError.ErrorParameter e)))
    ∧ (program_error p = none →
        ∀ e, attr_error compat m.attributes p.info.attributes = some e →
          ((Renderer.draw compat r m sl f p st).2
              = some (DrawError.ErrorMesh e)
           ∧ ∀ c ∈ (Renderer.draw compat r m sl f p st).1.buf.drop
               r.buf.length, is_draw_cmd c = false)) := by
  refine ⟨?_, ?_, ?_⟩
  · rw [draw_eq]
    exact draw_error_spec_shape compat m p
  · intro e hpe
    rw [draw_eq]
    rw [bind_frame_eq, bind_program_eq]
    unfold draw_cmds draw_error_spec
    rw [hpe]
    simp
  · intro hpe e ha
    constructor
    · rw [draw_eq]
      simp [draw_error_spec, hpe, ha]
    · intro c hc
      rw [draw_eq] at hc
      simp only [List.drop_left] at hc
      unfold draw_cmds at hc
      rw [hpe, ha] at hc
      apply tag_ne_draw
      rcases List.mem_append.mp hc with hc1 | hc1
      · rcases List.mem_append.mp hc1 with hc2 | hc2
        · rcases frame_cmds_tags _ _ _ _ c hc2 with h | h | h <;> omega
        · rcases program_cmds_tags _ c hc2 with h | h | h | h <;> omega
      · rcases List.mem_append.mp hc1 with hc2 | hc2
        · rcases List.mem_append.mp hc2 with hc3 | hc3
          · rcases ff_cmds_tags _ c hc3 with h | h | h | h | h <;> omega
          · rcases mesh_cmds_tags _ _ _ _ c hc3 with h | h <;> omega
        · simp at hc2

/-- Claim C6 witness: the concrete program missing uniform A makes the
draw call stop right after parameter binding with the wrapped uniform
error. -/
theorem C6_witness :
    Renderer.draw exCompat exRenderer exMesh (Slice.VertexSlice 0 0 3)
        exFrame1 exProgramAB DrawState.new
      = (((exRenderer.bind_frame exFrame1).bind_program exProgramAB).1,
         some (DrawError.ErrorParameter
           (ParameterError.ErrorParamUniform ("A")))) :=
  (C6_draw_stops_at_first_failure exCompat exRenderer exMesh
      (Slice.VertexSlice 0 0 3) exFrame1 exProgramAB DrawState.new).2.1
    (ParameterError.ErrorParamUniform ("A")) (by decide)

/-- Claim C7: for a program declaring no blocks and no textures, with all
declared uniforms supplied and a mesh resolving every declared attribute
compatibly, `draw` succeeds and the appended command sequence contains
exactly one viewport command, one program bind, one set-command per
fixed-function aspect (primitive, scissor, depth/stencil, blend, color
mask), one attribute bind per declared attribute, and exactly one draw
dispatch. -/
theorem C7_successful_draw_counts (compat : Nat → Nat → Bool) (r : Renderer)
    (m : Mesh) (sl : Slice) (f : Frame) (p : Program) (st : DrawState)
    (hb : p.info.blocks = []) (htx : p.info.textures = [])
    (hu : uniform_error (List.zip p.info.uniforms p.uniform_values) = none)
    (ha : attr_error compat m.attributes p.info.attributes = none) :
    (Renderer.draw compat r m sl f p st).2 = none
    ∧ count_tag 0 (draw_delta compat r m sl f p st) = 1
    ∧ count_tag 4 (draw_delta compat r m sl f p st) = 1
    ∧ count_tag 5 (draw_delta compat r m sl f p st) = 1
    ∧ count_tag 6 (draw_delta compat r m sl f p st) = 1
    ∧ count_tag 7 (draw_delta compat r m sl f p st) = 1
    ∧ count_tag 8 (draw_delta compat r m sl f p st) = 1
    ∧ count_tag 9 (draw_delta compat r m sl f p st) = 1
    ∧ count_tag 11 (draw_delta compat r m sl f p st)
        = p.info.attributes.length
    ∧ count_tag 16 (draw_delta compat r m sl f p st) = 1 := by
  have hpe : program_error p = none := by
    unfold program_error
    rw [hu, hb, htx]
    simp [block_error, texture_error]
  have hpc : program_cmds p = Command.bind_program p.prog_name ::
      uniform_cmds (List.zip p.info.uniforms p.uniform_values) := by
    unfold program_cmds
    rw [hu, hb, htx]
    simp [block_cmds, texture_cmds]
  have hdelta : draw_delta compat r m sl f p st =
      frame_cmds r.state.frame r.common_frame_buffer r.default_frame_buffer f
        ++ ((Command.bind_program p.prog_name ::
              uniform_cmds (List.zip p.info.uniforms p.uniform_values))
        ++ (ff_cmds st
        ++ (mesh_cmds compat r.common_array_buffer m p.info
        ++ slice_cmds sl))) := by
    unfold draw_delta
    rw [draw_eq]
    simp only [List.drop_left]
    unfold draw_cmds
    rw [hpe, ha, hpc]
    simp [List.append_assoc]
  have hff0 : count_tag 0 (ff_cmds st) = 0 := rfl
  have hff4 : count_tag 4 (ff_cmds st) = 0 := rfl
  have hff5 : count_tag 5 (ff_cmds st) = 1 := rfl
  have hff6 : count_tag 6 (ff_cmds st) = 1 := rfl
  have hff7 : count_tag 7 (ff_cmds st) = 1 := rfl
  have hff8 : count_tag 8 (ff_cmds st) = 1 := rfl
  have hff9 : count_tag 9 (ff_cmds st) = 1 := rfl
  have hff11 : count_tag 11 (ff_cmds st) = 0 := rfl
  have hff16 : count_tag 16 (ff_cmds st) = 0 := rfl
  have hm11 := count_mesh_eleven compat r.common_array_buffer m p.info ha
  refine ⟨?_, ?_, ?_, ?_, ?_, ?_, ?_, ?_, ?_, ?_⟩
  · rw [draw_eq]
    simp [draw_error_spec, hpe, ha]
  all_goals
    rw [hdelta]
    simp [count_tag_append, count_tag_cons, cmd_tag, count_frame_viewport,
      count_frame_ne, count_uniform_ne, hff0, hff4, hff5, hff6,
      hff7, hff8, hff9, hff11, hff16, hm11, count_mesh_ne,
      count_slice_sixteen, count_slice_ne]

/-- Claim C7 witness: the concrete program with one supplied uniform, no
blocks or textures, and a mesh resolving its single declared attribute. -/
theorem C7_witness :
    (Renderer.draw exCompat exRenderer exMesh (Slice.VertexSlice 0 0 3)
        exFrame1 exProgramOK DrawState.new).2 = none
    ∧ count_tag 0 (draw_delta exCompat exRenderer exMesh
        (Slice.VertexSlice 0 0 3) exFrame1 exProgramOK DrawState.new) = 1
    ∧ count_tag 4 (draw_delta exCompat exRenderer exMesh
        (Slice.VertexSlice 0 0 3) exFrame1 exProgramOK DrawState.new) = 1
    ∧ count_tag 5 (draw_delta exCompat exRenderer exMesh
        (Slice.VertexSlice 0 0 3) exFrame1 exProgramOK DrawState.new) = 1
    ∧ count_tag 6 (draw_delta exCompat exRenderer exMesh
        (Slice.VertexSlice 0 0 3) exFrame1 exProgramOK DrawState.new) = 1
    ∧ count_tag 7 (draw_delta exCompat exRenderer exMesh
        (Slice.VertexSlice 0 0 3) exFrame1 exProgramOK DrawState.new) = 1
    ∧ count_tag 8 (draw_delta exCompat exRenderer exMesh
        (Slice.VertexSlice 0 0 3) exFrame1 exProgramOK DrawState.new) = 1
    ∧ count_tag 9 (draw_delta exCompat exRenderer exMesh
        (Slice.VertexSlice 0 0 3) exFrame1 exProgramOK DrawState.new) = 1
    ∧ count_tag 11 (draw_delta exCompat exRenderer exMesh
        (Slice.VertexSlice 0 0 3) exFrame1 exProgramOK DrawState.new)
        = exProgramOK.info.attributes.length
    ∧ count_tag 16 (draw_delta exCompat exRenderer exMesh
        (Slice.VertexSlice 0 0 3) exFrame1 exProgramOK DrawState.new) = 1 :=
  C7_successful_draw_counts exCompat exRenderer exMesh
    (Slice.VertexSlice 0 0 3) exFrame1 exProgramOK DrawState.new
    rfl rfl (by decide) (by decide)

/-! Observational lemmas for call sequences (claim C9). -/

theorem runCall_obs (compat : Nat → Nat → Bool) (c : Call) (r1 r2 : Renderer)
    (h : r1.obs = r2.obs) :
    (runCall compat r1 c).obs = (runCall compat r2 c).obs := by
  simp only [Renderer.obs, Prod.mk.injEq] at h
  obtain ⟨h1, h2, h3, h4, h5⟩ := h
  cases c with
  | clear d f =>
    simp [runCall, clear_eq, Renderer.obs, h1, h2, h3, h4, h5]
  | draw m sl f p st =>
    simp [runCall, draw_eq, Renderer.obs, h1, h2, h3, h4, h5]

theorem runCalls_obs (compat : Nat → Nat → Bool) (cs : List Call) :
    ∀ r1 r2 : Renderer, r1.obs = r2.obs →
      (runCalls compat r1 cs).obs = (runCalls compat r2 cs).obs := by
  induction cs with
  | nil => intro r1 r2 h; simpa [runCalls] using h
  | cons c cs2 ih =>
    intro r1 r2 h
    simp only [runCalls]
    exact ih _ _ (runCall_obs compat c r1 r2 h)

/-- Claim C9 counterexample: a renderer that has bound a non-default frame
and is then reset does NOT replay like a fresh renderer with the same
handles — the fresh renderer re-emits the attachment bind that the reset
renderer's preserved shadow state suppresses. -/
theorem C9_counterexample :
    (runCalls exCompat
        (Renderer.reset (Renderer.bind_frame exRenderer exFrame1))
        [Call.clear 0 exFrame1]).buf
      ≠ (runCalls exCompat (create_renderer none 1 2)
          [Call.clear 0 exFrame1]).buf := by
  decide

/-- Claim C9 as amended: provided the renderer's shadow frame state still
equals a fresh renderer's initial shadow (`Frame.new 0 0` — e.g. it has
never bound a non-default frame), `reset` followed by any sequence of
draw/clear calls records exactly the command sequence a freshly created
renderer sharing its resource handles would record on the same calls. -/
theorem C9_reset_roundtrip (compat : Nat → Nat → Bool) (r : Renderer)
    (calls : List Call) (h : r.state.frame = Frame.new 0 0) :
    (runCalls compat r.reset calls).buf =
      (runCalls compat (create_renderer r.common_array_buffer
        r.common_frame_buffer r.default_frame_buffer) calls).buf := by
  have hobs : (r.reset).obs = (create_renderer r.common_array_buffer
      r.common_frame_buffer r.default_frame_buffer).obs := by
    simp [Renderer.reset, create_renderer, Renderer.obs, h]
  exact congrArg Prod.fst (runCalls_obs compat calls _ _ hobs)

/-- Claim C9 witness: a never-drawn renderer reset and replayed against a
fresh renderer on a concrete clear call. -/
theorem C9_witness :
    (runCalls exCompat (Renderer.reset exRenderer) [Call.clear 0 exFrame1]).buf
      = (runCalls exCompat (create_renderer none 1 2)
          [Call.clear 0 exFrame1]).buf :=
  C9_reset_roundtrip exCompat exRenderer [Call.clear 0 exFrame1] (by decide)

/-! Membership of re-emitted binds when diffing against the zeroed shadow
(claim C10). -/

theorem diff_replicate_mem (ys : List Plane) :
    ∀ (n k i : Nat) (p : Plane), i < n → ys.get? i = some p →
      p ≠ Plane.PlaneEmpty →
      target_cmd (Target.TargetColor ((k + i) % 256)) p ∈
        (((List.replicate n Plane.PlaneEmpty).zip ys).enumFrom k).filterMap
          color_diff_cmd := by
  induction ys with
  | nil => intro n k i p _ hg _; simp at hg
  | cons y yt ih =>
    intro n k i p hn hg hne
    cases n with
    | zero => omega
    | succ n0 =>
      rw [List.replicate_succ, List.zip_cons_cons, List.enumFrom_cons,
        List.filterMap_cons]
      cases i with
      | zero =>
        have hy : y = p := by simpa using hg
        subst hy
        have hcd : color_diff_cmd (k, (Plane.PlaneEmpty, y))
            = some (target_cmd (Target.TargetColor (k % 256)) y) := by
          simp [color_diff_cmd]
          exact Ne.symm hne
        rw [hcd]
        simp
      | succ i0 =>
        have hg' : yt.get? i0 = some p := by simpa using hg
        have hmem := ih n0 (k + 1) i0 p (by omega) hg' hne
        have harith : k + 1 + i0 = k + (i0 + 1) := by omega
        rw [harith] at hmem
        cases hcd : color_diff_cmd (k, (Plane.PlaneEmpty, y)) with
        | none => exact hmem
        | some c => exact List.mem_cons_of_mem c hmem

theorem mem_frame_cmds_of_mem_rest (shadow : Frame) (cfb dfb : Nat)
    (f : Frame) (c : Command) (hf : f.is_default = false)
    (h : c ∈
      (((List.zip shadow.colors f.colors).enum).filterMap color_diff_cmd ++
       (if shadow.depth ≠ f.depth then
         [target_cmd Target.TargetDepth f.depth] else []) ++
       (if shadow.stencil ≠ f.stencil then
         [target_cmd Target.TargetStencil f.stencil] else []))) :
    c ∈ frame_cmds shadow cfb dfb f := by
  unfold frame_cmds frame_rest
  rw [if_neg (by simp [hf])]
  exact List.mem_cons_of_mem _ (List.mem_cons_of_mem _ h)

/-- Claim C10: `clone_empty` produces a renderer with an empty command
sequence, the same shared handles, and a freshly zeroed shadow frame, so
its next `bind_frame` behaves exactly like a never-yet-drawn renderer's:
every non-empty attachment slot of the bound non-default frame gets its
bind command re-emitted. -/
theorem C10_clone_empty_resets (r : Renderer) (F : Frame) :
    (r.clone_empty.buf = []
     ∧ r.clone_empty.common_array_buffer = r.common_array_buffer
     ∧ r.clone_empty.common_frame_buffer = r.common_frame_buffer
     ∧ r.clone_empty.default_frame_buffer = r.default_frame_buffer
     ∧ r.clone_empty.state.frame = Frame.new 0 0)
    ∧ (r.clone_empty.bind_frame F).buf
        = ((create_renderer r.common_array_buffer r.common_frame_buffer
              r.default_frame_buffer).bind_frame F).buf
    ∧ (F.is_default = false →
        (∀ i p, i < max_color_targets → F.colors.get? i = some p →
            p ≠ Plane.PlaneEmpty →
            target_cmd (Target.TargetColor (i % 256)) p
              ∈ (r.clone_empty.bind_frame F).buf)
        ∧ (F.depth ≠ Plane.PlaneEmpty →
            target_cmd Target.TargetDepth F.depth
              ∈ (r.clone_empty.bind_frame F).buf)
        ∧ (F.stencil ≠ Plane.PlaneEmpty →
            target_cmd Target.TargetStencil F.stencil
              ∈ (r.clone_empty.bind_frame F).buf)) := by
  refine ⟨⟨rfl, rfl, rfl, rfl, rfl⟩, rfl, ?_⟩
  intro hF
  have hclone : r.clone_empty.bind_frame F
      = (create_renderer r.common_array_buffer r.common_frame_buffer
          r.default_frame_buffer).bind_frame F := rfl
  refine ⟨?_, ?_, ?_⟩
  · intro i p hi hg hne
    have hmem := diff_replicate_mem F.colors max_color_targets 0 i p hi hg hne
    rw [Nat.zero_add] at hmem
    rw [hclone, bind_frame_eq]
    simp only [create_renderer]
    refine List.mem_append_right _ ?_
    refine mem_frame_cmds_of_mem_rest _ _ _ _ _ hF ?_
    refine List.mem_append_left _ (List.mem_append_left _ ?_)
    simpa [Frame.new, List.enum] using hmem
  · intro hdep
    rw [hclone, bind_frame_eq]
    simp only [create_renderer]
    refine List.mem_append_right _ ?_
    refine mem_frame_cmds_of_mem_rest _ _ _ _ _ hF ?_
    refine List.mem_append_left _ (List.mem_append_right _ ?_)
    have hcond : (Frame.new 0 0).depth ≠ F.depth := by
      simp only [Frame.new]
      exact fun hEq => hdep hEq.symm
    rw [if_pos hcond]
    simp
  · intro hstn
    rw [hclone, bind_frame_eq]
    simp only [create_renderer]
    refine List.mem_append_right _ ?_
    refine mem_frame_cmds_of_mem_rest _ _ _ _ _ hF ?_
    refine List.mem_append_right _ ?_
    have hcond : (Frame.new 0 0).stencil ≠ F.stencil := by
      simp only [Frame.new]
      exact fun hEq => hstn hEq.symm
    rw [if_pos hcond]
    simp

/-- Claim C10 witness: cloning a renderer that bound a non-default frame
and rebinding that same frame re-emits its color-surface bind. -/
theorem C10_witness :
    ((Renderer.bind_frame exRenderer exFrame1).clone_empty.buf = []
     ∧ (Renderer.bind_frame exRenderer exFrame1).clone_empty.common_array_buffer
        = (Renderer.bind_frame exRenderer exFrame1).common_array_buffer
     ∧ (Renderer.bind_frame exRenderer exFrame1).clone_empty.common_frame_buffer
        = (Renderer.bind_frame exRenderer exFrame1).common_frame_buffer
     ∧ (Renderer.bind_frame exRenderer exFrame1).clone_empty.default_frame_buffer
        = (Renderer.bind_frame exRenderer exFrame1).default_frame_buffer
     ∧ (Renderer.bind_frame exRenderer exFrame1).clone_empty.state.frame
        = Frame.new 0 0)
    ∧ target_cmd (Target.TargetColor (0 % 256)) (Plane.PlaneSurface 7)
        ∈ ((Renderer.bind_frame exRenderer exFrame1).clone_empty.bind_frame
            exFrame1).buf := by
  obtain ⟨h1, _, h3⟩ :=
    C10_clone_empty_resets (Renderer.bind_frame exRenderer exFrame1) exFrame1
  exact ⟨h1, (h3 (by decide)).1 0 (Plane.PlaneSurface 7) (by decide)
    (by decide) (by decide)⟩

/-- Claim C3 witness: concrete default frame followed by a non-default
frame. -/
theorem C3_witness :
    (exRenderer.bind_frame exFrameD).buf
        = exRenderer.buf ++ [Command.set_viewport 0 0 exFrameD.width
            exFrameD.height,
          Command.bind_frame_buffer exRenderer.default_frame_buffer]
    ∧ (exRenderer.bind_frame exFrameD).state = exRenderer.state
    ∧ ∀ f, f.is_default = false →
        ((exRenderer.bind_frame exFrameD).bind_frame f).buf.drop
            (exRenderer.bind_frame exFrameD).buf.length
          = (exRenderer.bind_frame f).buf.drop exRenderer.buf.length :=
  C3_default_frame_preserves_shadow exRenderer exFrameD (by decide)

end Gfx
